import Mathlib

/-!
Shallow embedding of the archer-controller reconciliation core
(`pkg/controller/service_controller.go`, `pkg/controller/util.go`).

Kubernetes services are modelled as records of the fields that the
controller reads; the archer broker and the kube API are modelled as a
response environment, and every remote / API call that the controller
issues is collected in a trace, so that frame conditions ("issues zero
create calls") can be stated as facts about the trace.
-/

namespace Archer

/-- Annotation constants of possible service annotations
(constants block of `service_controller.go`). -/
def AnnotationEndpointServiceCreate : String := "archer-create"

def AnnotationEndpointServiceNetwork : String := "archer-network-id"

def AnnotationEndpointServiceName : String := "archer-service-name"

def AnnotationEndpointServiceProxyProtocol : String := "archer-proxy-protocol"

def AnnotationEndpointServiceVisibility : String := "archer-visibility"

def AnnotationEndpointServiceRequireApproval : String := "archer-require-approval"

def AnnotationEndpointServiceTags : String := "archer-tags"

def AnnotationEndpointServiceAvailabilityZone : String := "archer-availability-zone"

def AnnotationEndpointServicePort : String := "archer-port"

/-- The fields of a `corev1.Service` that the controller reads or writes:
namespace (`ns`, since `namespace` is reserved), name, UID, the annotation
map (`none` models a nil map), the finalizer list, whether the deletion
timestamp is set, the ClusterIP and the declared ports (`Port` of each
`ServicePort`, an int32). -/
structure KubeService where
  ns : String
  name : String
  uid : String
  annotations : Option (List (String × String))
  finalizers : List String
  deletionTimestampSet : Bool
  clusterIP : String
  ports : List Int
  deriving Repr, DecidableEq

/-- `models.Service` of the archer client: pointer-typed (optional) fields
are `Option`s; `strfmt.UUID` / `strfmt.IPv4` are strings. -/
structure ModelsService where
  id : String
  name : String
  description : String
  enabled : Option Bool
  ipAddresses : List String
  networkID : Option String
  port : Int
  proxyProtocol : Option Bool
  requireApproval : Option Bool
  tags : List String
  visibility : Option String
  availabilityZone : Option String
  deriving Repr, DecidableEq

/-- `models.ServiceUpdatable`, the partial body sent by
`updateEndpointService`. -/
structure ServiceUpdatable where
  description : String
  enabled : Option Bool
  ipAddresses : List String
  name : String
  port : Int
  proxyProtocol : Option Bool
  requireApproval : Option Bool
  tags : List String
  visibility : Option String
  deriving Repr, DecidableEq

/-- The reconciler's configuration: `NetworkID` and `AnnotationKey`
(prefix) fields of `ArcherServiceReconciler`. -/
structure ArcherServiceReconciler where
  networkID : String
  annotationKey : String
  deriving Repr, DecidableEq

/-- Model of `makeAnnotation` (`util.go`): `fmt.Sprintf("%s/%s", prefix, annotationKey)`. -/
def makeAnnotationKey (pfx annotationKey : String) : String :=
  pfx ++ "/" ++ annotationKey

/-- `getAnnotationString` (`util.go`): nil map gives `("", false)`,
otherwise the map lookup with its ok flag; modelled as an `Option`. -/
def getAnnotationString (key : String) (svc : KubeService) : Option String :=
  match svc.annotations with
  | none => none
  | some m => m.lookup key

/-- `getAnnotationBoolean` (`util.go`): default on nil map or missing key,
otherwise `v == "true"`. -/
def getAnnotationBoolean (key : String) (svc : KubeService) (dflt : Bool) : Bool :=
  match svc.annotations with
  | none => dflt
  | some m =>
    match m.lookup key with
    | none => dflt
    | some v => v == "true"

/-- `strings.Split(s, " ")` on the character list: Go's split with a
single-character separator; the empty string yields `[[]]`. -/
def splitChars (sep : Char) : List Char → List (List Char)
  | [] => [[]]
  | c :: cs =>
    match splitChars sep cs with
    | [] => [[]]
    | r :: rs => if c = sep then [] :: r :: rs else (c :: r) :: rs

/-- `strings.Split(s, " ")` as used for the tags annotation. -/
def goSplitSpace (s : String) : List String :=
  (splitChars ' ' s.data).map fun l => String.mk l

/-- Accumulate decimal digits; `none` on the first non-digit. -/
def parseDigitsAux : Nat → List Char → Option Nat
  | acc, [] => some acc
  | acc, c :: cs =>
    if c.isDigit then parseDigitsAux (acc * 10 + (c.toNat - 48)) cs else none

/-- `strconv.Atoi`: optional sign, at least one digit, all digits, and the
value must fit a signed 64-bit int (out-of-range is an error). -/
def goAtoi (s : String) : Option Int :=
  match s.data with
  | [] => none
  | '+' :: ds =>
    match ds with
    | [] => none
    | _ => (parseDigitsAux 0 ds).bind fun n =>
        if n ≤ 2 ^ 63 - 1 then some (Int.ofNat n) else none
  | '-' :: ds =>
    match ds with
    | [] => none
    | _ => (parseDigitsAux 0 ds).bind fun n =>
        if n ≤ 2 ^ 63 then some (-(Int.ofNat n)) else none
  | ds => (parseDigitsAux 0 ds).bind fun n =>
      if n ≤ 2 ^ 63 - 1 then some (Int.ofNat n) else none

/-- Go's `int32(p)` conversion: wrap into `[-2^31, 2^31)`. -/
def toInt32 (p : Int) : Int :=
  (p + 2 ^ 31).emod (2 ^ 32) - 2 ^ 31

/-- Inner loop of the IP comparison in `serviceEqual`:
`ip == ip2 || ip == strfmt.IPv4(fmt.Sprint(ip2, "/32"))`. -/
def ipFound (ip : String) (ips2 : List String) : Bool :=
  ips2.any fun ip2 => ip == ip2 || ip == ip2 ++ "/32"

/-- The IP-address part of `serviceEqual`: length check, then every
desired address must be found in the remote list. -/
def ipsEqual (l1 l2 : List String) : Bool :=
  l1.length == l2.length && l1.all fun ip => ipFound ip l2

/-- The tag part of `serviceEqual`: length check, then every desired tag
must occur in the remote list. -/
def tagsEqual (t1 t2 : List String) : Bool :=
  t1.length == t2.length && t1.all fun tag => t2.contains tag

/-- A guarded optional-field check of `serviceEqual`
(`o1 != nil && o2 != nil && *o1 != *o2` fails the comparison):
passes unless both sides are set and differ. -/
def optEqCheck {α : Type} [BEq α] (o1 o2 : Option α) : Bool :=
  match o1, o2 with
  | some v1, some v2 => v1 == v2
  | _, _ => true

/-- The checks of `serviceEqual` after the `Enabled` check, in source
order: IP addresses, network id, port, proxy protocol, require approval,
tags, visibility. -/
def serviceEqualRest (s1 s2 : ModelsService) : Bool :=
  ipsEqual s1.ipAddresses s2.ipAddresses &&
  optEqCheck s1.networkID s2.networkID &&
  (s1.port == s2.port) &&
  optEqCheck s1.proxyProtocol s2.proxyProtocol &&
  optEqCheck s1.requireApproval s2.requireApproval &&
  tagsEqual s1.tags s2.tags &&
  optEqCheck s1.visibility s2.visibility

/-- `serviceEqual`: field comparisons in source order. The `Enabled` check
`s1.Enabled != nil && *s1.Enabled != *s2.Enabled` dereferences
`s2.Enabled` without a nil guard, so a set desired `Enabled` against a nil
remote `Enabled` is a nil-pointer dereference, modelled as `none`. -/
def serviceEqualQ (s1 s2 : ModelsService) : Option Bool :=
  if s1.name ≠ s2.name then some false
  else if s1.description ≠ s2.description then some false
  else
    match s1.enabled, s2.enabled with
    | some _, none => none
    | some e1, some e2 =>
      if e1 ≠ e2 then some false else some (serviceEqualRest s1 s2)
    | none, _ => some (serviceEqualRest s1 s2)

/-- The initial composite literal of `getBodyFromService`:
`&models.Service{...}` with the defaulted name, description, single
ClusterIP address, broker-wide network id, the two correlation tags and
public visibility (`Port` still at its zero value). -/
def baseBody (r : ArcherServiceReconciler) (svc : KubeService) : ModelsService :=
  { id := ""
    name := svc.ns ++ "-" ++ svc.name
    description := "Kubernetes service " ++ svc.ns ++ "/" ++ svc.name
    enabled := none
    ipAddresses := [svc.clusterIP]
    networkID := some r.networkID
    port := 0
    proxyProtocol := none
    requireApproval := none
    tags := ["kubernetes", svc.uid]
    visibility := some "public"
    availabilityZone := none }

/-- The port block of `getBodyFromService`: annotation wins and must
parse (`strconv.Atoi`, then `int32` conversion); else the first declared
port; else the "has no ports" error. -/
def portFor (r : ArcherServiceReconciler) (svc : KubeService) : Except String Int :=
  match getAnnotationString (makeAnnotationKey r.annotationKey AnnotationEndpointServicePort) svc with
  | some port =>
    match goAtoi port with
    | none => Except.error ("strconv.Atoi: parsing " ++ port ++ ": invalid syntax")
    | some p => Except.ok (toInt32 p)
  | none =>
    match svc.ports with
    | p :: _ => Except.ok p
    | [] => Except.error ("service " ++ svc.ns ++ "/" ++ svc.name ++ " has no ports")

/-- `if name, ok := ...ServiceName...; ok { body.Name = name }`. -/
def applyNameAnn (r : ArcherServiceReconciler) (svc : KubeService) (b : ModelsService) : ModelsService :=
  match getAnnotationString (makeAnnotationKey r.annotationKey AnnotationEndpointServiceName) svc with
  | some name => { b with name := name }
  | none => b

/-- `if network, ok := ...ServiceNetwork...; ok { body.NetworkID = &networkID }`. -/
def applyNetworkAnn (r : ArcherServiceReconciler) (svc : KubeService) (b : ModelsService) : ModelsService :=
  match getAnnotationString (makeAnnotationKey r.annotationKey AnnotationEndpointServiceNetwork) svc with
  | some network => { b with networkID := some network }
  | none => b

/-- `if getAnnotationBoolean(...ProxyProtocol...) { body.ProxyProtocol = swag.Bool(true) }`. -/
def applyProxyAnn (r : ArcherServiceReconciler) (svc : KubeService) (b : ModelsService) : ModelsService :=
  if getAnnotationBoolean (makeAnnotationKey r.annotationKey AnnotationEndpointServiceProxyProtocol) svc false then
    { b with proxyProtocol := some true }
  else b

/-- `if getAnnotationBoolean(...RequireApproval...) { body.RequireApproval = swag.Bool(true) }`. -/
def applyApprovalAnn (r : ArcherServiceReconciler) (svc : KubeService) (b : ModelsService) : ModelsService :=
  if getAnnotationBoolean (makeAnnotationKey r.annotationKey AnnotationEndpointServiceRequireApproval) svc false then
    { b with requireApproval := some true }
  else b

/-- `if tags, ok := ...ServiceTags...; ok { body.Tags = append(body.Tags, strings.Split(tags, " ")...) }`. -/
def applyTagsAnn (r : ArcherServiceReconciler) (svc : KubeService) (b : ModelsService) : ModelsService :=
  match getAnnotationString (makeAnnotationKey r.annotationKey AnnotationEndpointServiceTags) svc with
  | some tags => { b with tags := b.tags ++ goSplitSpace tags }
  | none => b

/-- `if zone, ok := ...AvailabilityZone...; ok { body.AvailabilityZone = &zone }`. -/
def applyZoneAnn (r : ArcherServiceReconciler) (svc : KubeService) (b : ModelsService) : ModelsService :=
  match getAnnotationString (makeAnnotationKey r.annotationKey AnnotationEndpointServiceAvailabilityZone) svc with
  | some zone => { b with availabilityZone := some zone }
  | none => b

/-- `if visibility, ok := ...ServiceVisibility...; ok { body.Visibility = &visibility }`. -/
def applyVisibilityAnn (r : ArcherServiceReconciler) (svc : KubeService) (b : ModelsService) : ModelsService :=
  match getAnnotationString (makeAnnotationKey r.annotationKey AnnotationEndpointServiceVisibility) svc with
  | some visibility => { b with visibility := some visibility }
  | none => b

/-- `getBodyFromService`: the desired `models.Service` built from the
kube service's fields and annotations, or a validation error. The port
block runs first (the only two error returns), then the annotation
overrides in source order: name, network id, proxy protocol, require
approval, tags, availability zone, visibility. -/
def getBodyFromService (r : ArcherServiceReconciler) (svc : KubeService) :
    Except String ModelsService :=
  match portFor r svc with
  | Except.error e => Except.error e
  | Except.ok p =>
    Except.ok
      (applyVisibilityAnn r svc (applyZoneAnn r svc (applyTagsAnn r svc
        (applyApprovalAnn r svc (applyProxyAnn r svc (applyNetworkAnn r svc
          (applyNameAnn r svc { baseBody r svc with port := p })))))))

/-- A remote or kube-API call issued during one reconcile:
`GetService` (list by tags), `PostService`, `PutServiceServiceID`,
`DeleteServiceServiceID`, and `r.Update` on the local object. -/
inductive Call : Type
  | listServices (tags : List String)
  | postService (body : ModelsService)
  | putService (id : String) (body : ServiceUpdatable)
  | deleteService (id : String)
  | kubeUpdate (svc : KubeService)
  deriving Repr, DecidableEq

/-- The responses of the external collaborators for one reconcile: the
broker's list / create / update / delete results and the kube API's
result for `r.Update`. -/
structure Env where
  listResult : Except String (List ModelsService)
  postResult : Except String String
  putResult : Except String Unit
  deleteResult : Except String Unit
  kubeUpdateResult : Except String Unit
  deriving Repr

/-- `controllerutil.AddFinalizer`: append (callers guard on absence). -/
def addFinalizer (svc : KubeService) (fin : String) : KubeService :=
  { svc with finalizers := svc.finalizers ++ [fin] }

/-- `controllerutil.RemoveFinalizer`: drop every occurrence. -/
def removeFinalizer (svc : KubeService) (fin : String) : KubeService :=
  { svc with finalizers := svc.finalizers.filter fun f => f ≠ fin }

/-- Model of `svc.Annotations[key] = value` (the map write during create). -/
def setAnnotationValue (svc : KubeService) (key value : String) : KubeService :=
  let m := (svc.annotations.getD []).filter fun p => p.1 ≠ key
  { svc with annotations := some (m ++ [(key, value)]) }

/-- `deleteEndpointService`: read the recorded identifier from the `id`
annotation; absence is success with no call, otherwise issue the delete
by id. Returns the calls issued and the error result. -/
def deleteEndpointService (r : ArcherServiceReconciler) (env : Env) (svc : KubeService) :
    List Call × Except String Unit :=
  match getAnnotationString (makeAnnotationKey r.annotationKey "id") svc with
  | none => ([], Except.ok ())
  | some id => ([Call.deleteService id], env.deleteResult)

/-- `createEndpointService`: build the body, post it, then write the
returned identifier into the `archer-id` annotation and update the
object. Returns calls, the (possibly mutated) object and the result. -/
def createEndpointService (r : ArcherServiceReconciler) (env : Env) (svc : KubeService) :
    List Call × KubeService × Except String Unit :=
  match getBodyFromService r svc with
  | Except.error e => ([], svc, Except.error e)
  | Except.ok body =>
    match env.postResult with
    | Except.error e => ([Call.postService body], svc, Except.error e)
    | Except.ok id =>
      let svc1 := setAnnotationValue svc (makeAnnotationKey r.annotationKey "archer-id") id
      ([Call.postService body, Call.kubeUpdate svc1], svc1, env.kubeUpdateResult)

/-- The `models.ServiceUpdatable` built in `updateEndpointService`. -/
def mkUpdatable (body : ModelsService) : ServiceUpdatable :=
  { description := body.description
    enabled := body.enabled
    ipAddresses := body.ipAddresses
    name := body.name
    port := body.port
    proxyProtocol := body.proxyProtocol
    requireApproval := body.requireApproval
    tags := body.tags
    visibility := body.visibility }

/-- `updateEndpointService`: build the body; when `serviceEqual` says
unequal, put the updatable subset keyed by the remote id. The `none`
branch of `serviceEqualQ` is the nil-pointer fault. -/
def updateEndpointService (r : ArcherServiceReconciler) (env : Env)
    (svc : KubeService) (m : ModelsService) : List Call × Except String Unit :=
  match getBodyFromService r svc with
  | Except.error e => ([], Except.error e)
  | Except.ok body =>
    match serviceEqualQ body m with
    | none => ([], Except.error "panic: runtime error: invalid memory address or nil pointer dereference")
    | some true => ([], Except.ok ())
    | some false => ([Call.putService m.id (mkUpdatable body)], env.putResult)

/-- `reconcileEndpointService`: list by the correlation tags, then create
on zero matches, diff-and-update on one match, and error on several. -/
def reconcileEndpointService (r : ArcherServiceReconciler) (env : Env) (svc : KubeService) :
    List Call × KubeService × Except String Unit :=
  let listCall := Call.listServices ["kubernetes", svc.uid]
  match env.listResult with
  | Except.error e => ([listCall], svc, Except.error e)
  | Except.ok items =>
    match items with
    | [] =>
      let (cs, svc1, res) := createEndpointService r env svc
      (listCall :: cs, svc1, res)
    | [m] =>
      let (cs, res) := updateEndpointService r env svc m
      (listCall :: cs, svc, res)
    | _ =>
      ([listCall], svc,
        Except.error ("multiple endpoint services found for service " ++ svc.ns ++ "/" ++ svc.name))

/-- `Reconcile` (after the initial `Get` has loaded `svc`): the create
annotation gate, the finalizer add on the normal path, the deletion path
with remote cleanup and finalizer removal, and the endpoint-service sync.
Returns the calls issued, the final local object and the result. -/
def Reconcile (r : ArcherServiceReconciler) (env : Env) (svc : KubeService) :
    List Call × KubeService × Except String Unit :=
  if getAnnotationBoolean (makeAnnotationKey r.annotationKey AnnotationEndpointServiceCreate) svc false = false then
    ([], svc, Except.ok ())
  else
    let fin := makeAnnotationKey r.annotationKey "finalizer"
    if svc.deletionTimestampSet = false then
      if svc.finalizers.contains fin = false then
        let svc1 := addFinalizer svc fin
        match env.kubeUpdateResult with
        | Except.error e => ([Call.kubeUpdate svc1], svc1, Except.error e)
        | Except.ok () =>
          let (cs, svc2, res) := reconcileEndpointService r env svc1
          (Call.kubeUpdate svc1 :: cs, svc2, res)
      else
        reconcileEndpointService r env svc
    else
      if svc.finalizers.contains fin then
        let (dcs, dres) := deleteEndpointService r env svc
        match dres with
        | Except.error e => (dcs, svc, Except.error e)
        | Except.ok () =>
          let svc1 := removeFinalizer svc fin
          (dcs ++ [Call.kubeUpdate svc1], svc1, env.kubeUpdateResult)
      else
        let svc1 := removeFinalizer svc fin
        ([Call.kubeUpdate svc1], svc1, env.kubeUpdateResult)

end Archer


namespace Archer

theorem applyNameAnn_port (r : ArcherServiceReconciler) (svc : KubeService) (b : ModelsService) :
    (applyNameAnn r svc b).port = b.port := by
  unfold applyNameAnn; split <;> rfl

theorem applyNetworkAnn_port (r : ArcherServiceReconciler) (svc : KubeService) (b : ModelsService) :
    (applyNetworkAnn r svc b).port = b.port := by
  unfold applyNetworkAnn; split <;> rfl

theorem applyProxyAnn_port (r : ArcherServiceReconciler) (svc : KubeService) (b : ModelsService) :
    (applyProxyAnn r svc b).port = b.port := by
  unfold applyProxyAnn; split <;> rfl

theorem applyApprovalAnn_port (r : ArcherServiceReconciler) (svc : KubeService) (b : ModelsService) :
    (applyApprovalAnn r svc b).port = b.port := by
  unfold applyApprovalAnn; split <;> rfl

theorem applyTagsAnn_port (r : ArcherServiceReconciler) (svc : KubeService) (b : ModelsService) :
    (applyTagsAnn r svc b).port = b.port := by
  unfold applyTagsAnn; split <;> rfl

theorem applyZoneAnn_port (r : ArcherServiceReconciler) (svc : KubeService) (b : ModelsService) :
    (applyZoneAnn r svc b).port = b.port := by
  unfold applyZoneAnn; split <;> rfl

theorem applyVisibilityAnn_port (r : ArcherServiceReconciler) (svc : KubeService) (b : ModelsService) :
    (applyVisibilityAnn r svc b).port = b.port := by
  unfold applyVisibilityAnn; split <;> rfl

theorem getBody_ok_port (r : ArcherServiceReconciler) (svc : KubeService)
    (p : Int) (h : portFor r svc = Except.ok p) :
    ∃ body, getBodyFromService r svc = Except.ok body ∧ body.port = p := by
  unfold getBodyFromService
  rw [h]
  refine ⟨_, rfl, ?_⟩
  rw [applyVisibilityAnn_port, applyZoneAnn_port, applyTagsAnn_port, applyApprovalAnn_port,
    applyProxyAnn_port, applyNetworkAnn_port, applyNameAnn_port]

theorem getBody_error_iff (r : ArcherServiceReconciler) (svc : KubeService) :
    (∃ e, getBodyFromService r svc = Except.error e) ↔
      ((∃ s, getAnnotationString (makeAnnotationKey r.annotationKey AnnotationEndpointServicePort) svc = some s ∧
          goAtoi s = none) ∨
       (getAnnotationString (makeAnnotationKey r.annotationKey AnnotationEndpointServicePort) svc = none ∧
          svc.ports = [])) := by
  unfold getBodyFromService portFor
  cases hp : getAnnotationString (makeAnnotationKey r.annotationKey AnnotationEndpointServicePort) svc with
  | some s =>
    cases ha : goAtoi s with
    | none => simp [hp, ha]
    | some p => simp [hp, ha]
  | none =>
    cases hports : svc.ports with
    | nil => simp [hp, hports]
    | cons q qs => simp [hp, hports]


theorem applyNameAnn_tags (r : ArcherServiceReconciler) (svc : KubeService) (b : ModelsService) :
    (applyNameAnn r svc b).tags = b.tags := by
  unfold applyNameAnn; split <;> rfl

theorem applyNetworkAnn_tags (r : ArcherServiceReconciler) (svc : KubeService) (b : ModelsService) :
    (applyNetworkAnn r svc b).tags = b.tags := by
  unfold applyNetworkAnn; split <;> rfl

theorem applyProxyAnn_tags (r : ArcherServiceReconciler) (svc : KubeService) (b : ModelsService) :
    (applyProxyAnn r svc b).tags = b.tags := by
  unfold applyProxyAnn; split <;> rfl

theorem applyApprovalAnn_tags (r : ArcherServiceReconciler) (svc : KubeService) (b : ModelsService) :
    (applyApprovalAnn r svc b).tags = b.tags := by
  unfold applyApprovalAnn; split <;> rfl

theorem applyZoneAnn_tags (r : ArcherServiceReconciler) (svc : KubeService) (b : ModelsService) :
    (applyZoneAnn r svc b).tags = b.tags := by
  unfold applyZoneAnn; split <;> rfl

theorem applyVisibilityAnn_tags (r : ArcherServiceReconciler) (svc : KubeService) (b : ModelsService) :
    (applyVisibilityAnn r svc b).tags = b.tags := by
  unfold applyVisibilityAnn; split <;> rfl

theorem applyTagsAnn_mem (r : ArcherServiceReconciler) (svc : KubeService) (b : ModelsService)
    (x : String) (h : x ∈ b.tags) : x ∈ (applyTagsAnn r svc b).tags := by
  unfold applyTagsAnn
  split
  · exact List.mem_append_left _ h
  · exact h

theorem applyTagsAnn_eq (r : ArcherServiceReconciler) (svc : KubeService) (b : ModelsService)
    (t : String)
    (ht : getAnnotationString (makeAnnotationKey r.annotationKey AnnotationEndpointServiceTags) svc = some t) :
    (applyTagsAnn r svc b).tags = b.tags ++ goSplitSpace t := by
  unfold applyTagsAnn
  rw [ht]

/-- C8: correlation-marker invariant. Every desired spec produced by
getBodyFromService contains the fixed marker "kubernetes" and the
service UID in its tag list, for every combination of annotations. -/
theorem claim8_correlation_markers (r : ArcherServiceReconciler) (svc : KubeService)
    (body : ModelsService) (h : getBodyFromService r svc = Except.ok body) :
    "kubernetes" ∈ body.tags ∧ svc.uid ∈ body.tags := by
  unfold getBodyFromService at h
  cases hp : portFor r svc with
  | error e => rw [hp] at h; cases h
  | ok p =>
    rw [hp] at h
    injection h with h
    subst h
    rw [applyVisibilityAnn_tags, applyZoneAnn_tags]
    constructor <;>
    · apply applyTagsAnn_mem
      rw [applyApprovalAnn_tags, applyProxyAnn_tags, applyNetworkAnn_tags, applyNameAnn_tags]
      simp [baseBody]

/-- C10 (amended): tags annotation splitting. When a tags annotation is
present, the desired tag list is exactly the two correlation markers
followed by the annotation value split on the single space character
(Go `strings.Split(tags, " ")`; tabs and newlines do not split),
fragments appended in order. -/
theorem claim10_tags_split (r : ArcherServiceReconciler) (svc : KubeService)
    (t : String) (body : ModelsService)
    (ht : getAnnotationString (makeAnnotationKey r.annotationKey AnnotationEndpointServiceTags) svc = some t)
    (h : getBodyFromService r svc = Except.ok body) :
    body.tags = ["kubernetes", svc.uid] ++ goSplitSpace t := by
  unfold getBodyFromService at h
  cases hp : portFor r svc with
  | error e => rw [hp] at h; cases h
  | ok p =>
    rw [hp] at h
    injection h with h
    subst h
    rw [applyVisibilityAnn_tags, applyZoneAnn_tags, applyTagsAnn_eq r svc _ t ht,
      applyApprovalAnn_tags, applyProxyAnn_tags, applyNetworkAnn_tags, applyNameAnn_tags]
    rfl

/-- C5: port extraction precedence in getBodyFromService. If the port
annotation is present its value is parsed as an integer (Go int32
conversion applied) and a parse failure yields a validation error;
otherwise the first declared port is used; otherwise a "no ports"
validation error is returned; and the error cases are exactly these two. -/
theorem claim5_port_precedence (r : ArcherServiceReconciler) (svc : KubeService) :
    ((∃ e, getBodyFromService r svc = Except.error e) ↔
      ((∃ s, getAnnotationString (makeAnnotationKey r.annotationKey AnnotationEndpointServicePort) svc = some s ∧
          goAtoi s = none) ∨
       (getAnnotationString (makeAnnotationKey r.annotationKey AnnotationEndpointServicePort) svc = none ∧
          svc.ports = []))) ∧
    (∀ s p, getAnnotationString (makeAnnotationKey r.annotationKey AnnotationEndpointServicePort) svc = some s →
      goAtoi s = some p →
      ∃ body, getBodyFromService r svc = Except.ok body ∧ body.port = toInt32 p) ∧
    (∀ p rest, getAnnotationString (makeAnnotationKey r.annotationKey AnnotationEndpointServicePort) svc = none →
      svc.ports = p :: rest →
      ∃ body, getBodyFromService r svc = Except.ok body ∧ body.port = p) := by
  refine ⟨getBody_error_iff r svc, ?_, ?_⟩
  · intro s p h1 h2
    apply getBody_ok_port
    unfold portFor
    rw [h1]
    dsimp only
    rw [h2]
  · intro p rest h1 h2
    apply getBody_ok_port
    unfold portFor
    rw [h1]
    dsimp only
    rw [h2]

end Archer

namespace Archer

theorem getAnnotationBoolean_eq (key : String) (svc : KubeService) (dflt : Bool) :
    getAnnotationBoolean key svc dflt =
      match getAnnotationString key svc with
      | none => dflt
      | some v => v == "true" := by
  unfold getAnnotationBoolean getAnnotationString
  cases svc.annotations <;> rfl

/-- C6: create-annotation gate. Whenever the annotation map is absent,
lacks the create key, or maps it to any string other than exactly
"true", Reconcile succeeds with no calls at all and the object
unchanged, regardless of deletion timestamp or finalizer. -/
theorem claim6_create_gate_noop
    (r : ArcherServiceReconciler) (env : Env) (svc : KubeService)
    (h : ∀ v, getAnnotationString (makeAnnotationKey r.annotationKey AnnotationEndpointServiceCreate) svc = some v → v ≠ "true") :
    Reconcile r env svc = ([], svc, Except.ok ()) := by
  have hb : getAnnotationBoolean (makeAnnotationKey r.annotationKey AnnotationEndpointServiceCreate) svc false = false := by
    rw [getAnnotationBoolean_eq]
    cases hl : getAnnotationString (makeAnnotationKey r.annotationKey AnnotationEndpointServiceCreate) svc with
    | none => rfl
    | some v => simpa using h v hl
  simp [Reconcile, hb]

/-- C7: deletion path. For a tracked deleting service with the create
annotation true and no recorded `id` annotation, Reconcile issues no
broker call (the remote delete is a no-op), removes the finalizer,
persists the object via the single kube update, and succeeds. -/
theorem claim7_deletion_path
    (r : ArcherServiceReconciler) (env : Env) (svc : KubeService)
    (hc : getAnnotationBoolean (makeAnnotationKey r.annotationKey AnnotationEndpointServiceCreate) svc false = true)
    (hd : svc.deletionTimestampSet = true)
    (_hf : svc.finalizers.contains (makeAnnotationKey r.annotationKey "finalizer") = true)
    (hid : getAnnotationString (makeAnnotationKey r.annotationKey "id") svc = none)
    (hku : env.kubeUpdateResult = Except.ok ()) :
    Reconcile r env svc =
      ([Call.kubeUpdate (removeFinalizer svc (makeAnnotationKey r.annotationKey "finalizer"))],
       removeFinalizer svc (makeAnnotationKey r.annotationKey "finalizer"),
       Except.ok ()) := by
  simp [Reconcile, deleteEndpointService, hc, hd, hid, hku]

/-- C4: ambiguous remote state is surfaced, never resolved. For a
tracked, non-deleting service whose remote lookup returns two or more
matches, Reconcile returns an error, its only call is the list call (no
create, update or delete, and no kube update), and the local object is
unchanged. -/
theorem claim4_ambiguous_error
    (r : ArcherServiceReconciler) (env : Env) (svc : KubeService)
    (items : List ModelsService)
    (hc : getAnnotationBoolean (makeAnnotationKey r.annotationKey AnnotationEndpointServiceCreate) svc false = true)
    (hd : svc.deletionTimestampSet = false)
    (hf : svc.finalizers.contains (makeAnnotationKey r.annotationKey "finalizer") = true)
    (hl : env.listResult = Except.ok items)
    (hlen : 2 ≤ items.length) :
    Reconcile r env svc =
      ([Call.listServices ["kubernetes", svc.uid]], svc,
       Except.error ("multiple endpoint services found for service " ++ svc.ns ++ "/" ++ svc.name)) := by
  obtain ⟨a, b, t, rfl⟩ : ∃ a b t, items = a :: b :: t := by
    match items, hlen with
    | a :: b :: t, _ => exact ⟨a, b, t, rfl⟩
  have hf' : makeAnnotationKey r.annotationKey "finalizer" ∈ svc.finalizers := by
    simpa using hf
  simp [Reconcile, reconcileEndpointService, hc, hd, hf', hl]

end Archer

namespace Archer

/-- Fixture reconciler: prefix `cloud.sap`, broker network `net-1`. -/
def rFix : ArcherServiceReconciler := { networkID := "net-1", annotationKey := "cloud.sap" }

/-- Fixture service: tracked (finalizer present), create annotation set,
ClusterIP `10.0.0.1`, one declared port 80. -/
def svcFix : KubeService :=
  { ns := "default", name := "test", uid := "u1",
    annotations := some [("cloud.sap/archer-create", "true")],
    finalizers := ["cloud.sap/finalizer"], deletionTimestampSet := false,
    clusterIP := "10.0.0.1", ports := [80] }

/-- Fixture environment: empty remote list, create returns id `abc-123`,
every call succeeds. -/
def envFix : Env :=
  { listResult := Except.ok [], postResult := Except.ok "abc-123",
    putResult := Except.ok (), deleteResult := Except.ok (),
    kubeUpdateResult := Except.ok () }

/-- The object as persisted by the create reconcile of `svcFix`:
the returned identifier recorded under `cloud.sap/archer-id`. -/
def svcCreated : KubeService :=
  { svcFix with
    annotations := some [("cloud.sap/archer-create", "true"), ("cloud.sap/archer-id", "abc-123")] }

/-- `svcCreated` being deleted. -/
def svcDeleting : KubeService := { svcCreated with deletionTimestampSet := true }

/-- `svcDeleting` after the deletion reconcile: finalizer removed. -/
def svcReleased : KubeService := { svcDeleting with finalizers := [] }

/-- A minimal remote endpoint service with the given id. -/
def mRemote (i : String) : ModelsService :=
  { id := i, name := "x", description := "d", enabled := none, ipAddresses := [],
    networkID := none, port := 80, proxyProtocol := none, requireApproval := none,
    tags := [], visibility := none, availabilityZone := none }

/-- C1 (refuted, code bug): the identifier recorded at creation is never
read back on deletion. The annotation key written by
createEndpointService is `<prefix>/archer-id` while deleteEndpointService
reads `<prefix>/id`; the two differ for every prefix. Concretely, the
create reconcile of `svcFix` records the returned id under
`cloud.sap/archer-id`, yet the subsequent deletion reconcile of that very
object issues no remote delete call at all — it only removes the
finalizer and persists, orphaning the remote resource. -/
theorem claim1_recorded_id_not_read_back :
    (∀ pfx : String, (makeAnnotationKey pfx "archer-id" == makeAnnotationKey pfx "id") = false) ∧
    (Reconcile rFix envFix svcFix).2.1 = svcCreated ∧
    getAnnotationString (makeAnnotationKey rFix.annotationKey "archer-id") svcCreated = some "abc-123" ∧
    Reconcile rFix envFix svcDeleting =
      ([Call.kubeUpdate svcReleased], svcReleased, Except.ok ()) := by
  refine ⟨?_, rfl, rfl, rfl⟩
  intro pfx
  rw [beq_eq_false_iff_ne]
  intro h
  have hl := congrArg String.length h
  rw [makeAnnotationKey, makeAnnotationKey, String.length_append, String.length_append,
    String.length_append, String.length_append,
    show "archer-id".length = 9 from rfl, show "id".length = 2 from rfl] at hl
  omega

/-- Fixture environment whose list call returns two matches. -/
def envAmb : Env := { envFix with listResult := Except.ok [mRemote "a", mRemote "b"] }

/-- C4 witness: two concrete remote matches yield exactly the error and
only the list call. -/
theorem claim4_witness :
    Reconcile rFix envAmb svcFix =
      ([Call.listServices ["kubernetes", svcFix.uid]], svcFix,
       Except.error ("multiple endpoint services found for service " ++ svcFix.ns ++ "/" ++ svcFix.name)) :=
  claim4_ambiguous_error rFix envAmb svcFix [mRemote "a", mRemote "b"] rfl rfl rfl rfl (by decide)

/-- Fixture service whose create annotation is `"True"`, not `"true"`. -/
def svcNoCreate : KubeService :=
  { svcFix with annotations := some [("cloud.sap/archer-create", "True")] }

/-- C6 witness: a create annotation of `"True"` (not exactly `"true"`)
is a pure no-op. -/
theorem claim6_witness :
    Reconcile rFix envFix svcNoCreate = ([], svcNoCreate, Except.ok ()) := by
  apply claim6_create_gate_noop
  intro v hv
  rw [show getAnnotationString (makeAnnotationKey rFix.annotationKey AnnotationEndpointServiceCreate) svcNoCreate = some "True" from rfl] at hv
  injection hv with h
  subst h
  decide

/-- `svcFix` being deleted before any identifier was recorded. -/
def svcDeletingNoId : KubeService := { svcFix with deletionTimestampSet := true }

/-- C7 witness: deleting `svcFix` before any identifier was recorded
removes the finalizer, persists, and issues no broker call. -/
theorem claim7_witness :
    Reconcile rFix envFix svcDeletingNoId =
      ([Call.kubeUpdate (removeFinalizer svcDeletingNoId (makeAnnotationKey rFix.annotationKey "finalizer"))],
       removeFinalizer svcDeletingNoId (makeAnnotationKey rFix.annotationKey "finalizer"),
       Except.ok ()) :=
  claim7_deletion_path rFix envFix svcDeletingNoId rfl rfl rfl rfl rfl

end Archer




namespace Archer

theorem optEqCheck_refl {α : Type} [BEq α] [LawfulBEq α] (o : Option α) :
    optEqCheck o o = true := by
  cases o <;> simp [optEqCheck]

theorem tagsEqual_refl (t : List String) : tagsEqual t t = true := by
  simp [tagsEqual, List.all_eq_true]

theorem serviceEqualQ_same_but_ips (s : ModelsService) (hen : s.enabled = none)
    (X Y : List String) :
    serviceEqualQ { s with ipAddresses := X } { s with ipAddresses := Y } =
      some (ipsEqual X Y) := by
  unfold serviceEqualQ serviceEqualRest
  dsimp only
  rw [hen]
  simp [optEqCheck_refl, tagsEqual_refl]

theorem string_ne_append_slash32 (a t : String) (ht : t.data ≠ []) : a ≠ a ++ t := by
  intro h
  have hl := congrArg String.length h
  rw [String.length_append] at hl
  have h0 : t.length = 0 := by omega
  exact ht (List.length_eq_zero.mp h0)


theorem ipsEqual_iff (l1 l2 : List String) :
    ipsEqual l1 l2 = true ↔
      (l1.length = l2.length ∧ ∀ x ∈ l1, ∃ y ∈ l2, x = y ∨ x = y ++ "/32") := by
  simp [ipsEqual, ipFound, List.all_eq_true, List.any_eq_true]

/-- C2 (amended): IP-address comparison in serviceEqual. The address
lists are judged equal exactly when they have equal length and every
desired address equals some remote address exactly or equals that remote
address with "/32" appended; hence a desired address "a/32" against the
bare remote address a is judged equal, while a desired bare address a
against the remote address "a/32", and two distinct bare addresses, are
judged unequal. -/
theorem claim2_ip_normalization_amended (s : ModelsService) (a b : String)
    (hen : s.enabled = none) (hslash : ('/' : Char) ∉ a.data) (hab : a ≠ b) :
    serviceEqualQ { s with ipAddresses := [a ++ "/32"] } { s with ipAddresses := [a] } = some true ∧
    serviceEqualQ { s with ipAddresses := [a] } { s with ipAddresses := [a ++ "/32"] } = some false ∧
    serviceEqualQ { s with ipAddresses := [a] } { s with ipAddresses := [b] } = some false ∧
    (∀ l1 l2 : List String, ipsEqual l1 l2 = true ↔
      (l1.length = l2.length ∧ ∀ x ∈ l1, ∃ y ∈ l2, x = y ∨ x = y ++ "/32")) := by
  have hne1 : a ≠ a ++ "/32" := string_ne_append_slash32 a "/32" (by decide)
  have hne2 : a ≠ a ++ "/32" ++ "/32" := by
    rw [String.append_assoc]
    exact string_ne_append_slash32 a ("/32" ++ "/32") (by decide)
  have hne3 : a ≠ b ++ "/32" := by
    intro h
    apply hslash
    have hd := congrArg String.data h
    rw [String.data_append] at hd
    rw [hd]
    exact List.mem_append_right _ (by decide)
  refine ⟨?_, ?_, ?_, ipsEqual_iff⟩
  · rw [serviceEqualQ_same_but_ips s hen]
    simp [ipsEqual, ipFound]
  · rw [serviceEqualQ_same_but_ips s hen]
    simp [ipsEqual, ipFound, hne1, hne2]
  · rw [serviceEqualQ_same_but_ips s hen]
    simp [ipsEqual, ipFound, hab, hne3]

/-- C3 (amended): serviceEqual evaluates to a boolean without a fault
for every pair in which the desired Enabled is unset or the remote
Enabled is set; all optional fields other than Enabled are dereferenced
only under nil checks covering both sides. -/
theorem claim3_total_amended (s1 s2 : ModelsService)
    (h : s1.enabled = none ∨ s2.enabled ≠ none) :
    (serviceEqualQ s1 s2).isSome = true := by
  unfold serviceEqualQ
  cases h1 : s1.enabled with
  | none => repeat' split
            all_goals simp_all
  | some e1 =>
    cases h2 : s2.enabled with
    | none =>
      exfalso
      rcases h with h | h
      · rw [h1] at h; cases h
      · exact h h2
    | some e2 => repeat' split
                 all_goals simp_all

theorem tagsEqual_perm (t1 : List String) {t2a t2b : List String} (h : t2a.Perm t2b) :
    tagsEqual t1 t2a = tagsEqual t1 t2b := by
  unfold tagsEqual
  rw [h.length_eq]
  have hc : ∀ a : String, t2a.contains a = t2b.contains a := by
    intro a
    simp only [List.contains, List.elem_eq_mem]
    exact decide_eq_decide.mpr h.mem_iff
  rw [funext hc]

/-- C9: tag comparison is order-independent set-style membership. The
tag check passes exactly when the lists have equal length and every
desired tag occurs in the remote list, and replacing the remote tag list
by any permutation of itself never changes serviceEqual. -/
theorem claim9_tags_set_semantics :
    (∀ t1 t2 : List String, tagsEqual t1 t2 = true ↔
      (t1.length = t2.length ∧ ∀ a ∈ t1, a ∈ t2)) ∧
    (∀ (s1 s2 : ModelsService) (t : List String), t.Perm s2.tags →
      serviceEqualQ s1 { s2 with tags := t } = serviceEqualQ s1 s2) := by
  constructor
  · intro t1 t2
    simp [tagsEqual, List.all_eq_true]
  · intro s1 s2 t h
    unfold serviceEqualQ serviceEqualRest
    dsimp only
    rw [tagsEqual_perm s1.tags h]

end Archer

namespace Archer

/-- A desired spec with a bare address, all other fields as `mRemote ""`. -/
def ipDesired : ModelsService := { mRemote "" with ipAddresses := ["10.0.0.1"] }

/-- The same service as stored by the broker with a `/32` suffix. -/
def ipRemote32 : ModelsService := { mRemote "" with ipAddresses := ["10.0.0.1/32"] }

/-- C2 counterexample: a desired bare `10.0.0.1` compared against the
remote `10.0.0.1/32`, all other fields identical, is judged UNEQUAL by
serviceEqual — the code appends "/32" to the remote address, not to the
desired one, so the claimed normalization direction fails. -/
theorem claim2_counterexample : serviceEqualQ ipDesired ipRemote32 = some false := rfl

/-- C2 amended witness at `a = "10.0.0.1"`, `b = "10.0.0.2"`. -/
theorem claim2_amended_witness :
    serviceEqualQ { mRemote "m" with ipAddresses := ["10.0.0.1" ++ "/32"] }
        { mRemote "m" with ipAddresses := ["10.0.0.1"] } = some true ∧
    serviceEqualQ { mRemote "m" with ipAddresses := ["10.0.0.1"] }
        { mRemote "m" with ipAddresses := ["10.0.0.1" ++ "/32"] } = some false ∧
    serviceEqualQ { mRemote "m" with ipAddresses := ["10.0.0.1"] }
        { mRemote "m" with ipAddresses := ["10.0.0.2"] } = some false ∧
    (∀ l1 l2 : List String, ipsEqual l1 l2 = true ↔
      (l1.length = l2.length ∧ ∀ x ∈ l1, ∃ y ∈ l2, x = y ∨ x = y ++ "/32")) :=
  claim2_ip_normalization_amended (mRemote "m") "10.0.0.1" "10.0.0.2" rfl (by decide) (by decide)

/-- A desired spec that sets Enabled, all other fields as `mRemote ""`. -/
def enabledDesired : ModelsService := { mRemote "" with enabled := some true }

/-- C3 counterexample: a desired service with Enabled set compared
against a remote service with Enabled nil faults (nil-pointer
dereference of `*s2.Enabled`), modelled as `none`; serviceEqual is not
total over all nil/non-nil combinations. -/
theorem claim3_counterexample : serviceEqualQ enabledDesired (mRemote "") = none := rfl

/-- C3 amended witness: with the desired Enabled unset the comparison
evaluates to a boolean. -/
theorem claim3_witness : (serviceEqualQ (mRemote "") enabledDesired).isSome = true :=
  claim3_total_amended (mRemote "") enabledDesired (Or.inl rfl)

/-- C5 witness: `svcFix` declares ports `[80]` and has no port
annotation, so the desired port is 80. -/
theorem claim5_witness :
    ∃ body, getBodyFromService rFix svcFix = Except.ok body ∧ body.port = 80 :=
  (claim5_port_precedence rFix svcFix).2.2 80 [] rfl rfl

/-- The desired spec computed from `svcFix` by getBodyFromService. -/
def bodyFix : ModelsService :=
  { id := "", name := "default-test", description := "Kubernetes service default/test",
    enabled := none, ipAddresses := ["10.0.0.1"], networkID := some "net-1", port := 80,
    proxyProtocol := none, requireApproval := none, tags := ["kubernetes", "u1"],
    visibility := some "public", availabilityZone := none }

/-- C8 witness: the spec computed from `svcFix` carries both markers. -/
theorem claim8_witness : "kubernetes" ∈ bodyFix.tags ∧ svcFix.uid ∈ bodyFix.tags :=
  claim8_correlation_markers rFix svcFix bodyFix rfl

/-- Desired side for the tag-permutation witness. -/
def tagsDesired : ModelsService := { mRemote "t" with tags := ["kubernetes", "u1", "a"] }

/-- Remote side for the tag-permutation witness. -/
def tagsRemote : ModelsService := { mRemote "t" with tags := ["kubernetes", "u1", "a"] }

/-- C9 witness: permuting the remote tags to `["a","u1","kubernetes"]`
leaves serviceEqual unchanged. -/
theorem claim9_witness :
    serviceEqualQ tagsDesired { tagsRemote with tags := ["a", "u1", "kubernetes"] } =
      serviceEqualQ tagsDesired tagsRemote :=
  claim9_tags_set_semantics.2 tagsDesired tagsRemote ["a", "u1", "kubernetes"] (by decide)

/-- `svcFix` with a tags annotation `"a b"`. -/
def svcTags : KubeService :=
  let anns := [("cloud.sap/archer-create", "true"), ("cloud.sap/archer-tags", "a b")]
  { svcFix with annotations := some anns }

/-- The desired spec computed from `svcTags`. -/
def bodyTags : ModelsService := { bodyFix with tags := ["kubernetes", "u1", "a", "b"] }

/-- C10 witness: the tags annotation `"a b"` yields the two markers
followed by `"a"` and `"b"`. -/
theorem claim10_witness : bodyTags.tags = ["kubernetes", svcTags.uid] ++ goSplitSpace "a b" :=
  claim10_tags_split rFix svcTags "a b" bodyTags (by rfl) (by rfl)

end Archer

namespace Archer

/-- Split around every character satisfying `p`, keeping empty fragments. -/
def splitCharsBy (p : Char → Bool) : List Char → List (List Char)
  | [] => [[]]
  | c :: cs =>
    match splitCharsBy p cs with
    | [] => [[]]
    | r :: rs => if p c then [] :: r :: rs else (c :: r) :: rs

/-- Modelled from the spec: the spec's words "a tags annotation, if
present, is split on whitespace and appended" read as splitting around
every whitespace character (space, tab, newline, carriage return), for
comparison against the code's space-only `strings.Split(tags, " ")`. -/
def specSplitWhitespace (s : String) : List String :=
  (splitCharsBy Char.isWhitespace s.data).map fun l => String.mk l

/-- `svcFix` with a tags annotation whose value contains a tab. -/
def svcTagsTab : KubeService :=
  let anns := [("cloud.sap/archer-create", "true"), ("cloud.sap/archer-tags", "a\tb")]
  { svcFix with annotations := some anns }

/-- The desired spec computed from `svcTagsTab`: the tab-containing
value stays one single fragment. -/
def bodyTagsTab : ModelsService := { bodyFix with tags := ["kubernetes", "u1", "a\tb"] }

/-- C10 counterexample: for the tags annotation value `"a\tb"` the code
appends the single fragment `"a\tb"` (splitting only on the space
character), whereas splitting on whitespace as the claim states would
append `"a"` and `"b"`; so the computed tag list is not the markers
followed by the whitespace split. -/
theorem claim10_counterexample :
    getBodyFromService rFix svcTagsTab = Except.ok bodyTagsTab ∧
    specSplitWhitespace "a\tb" = ["a", "b"] ∧
    (bodyTagsTab.tags == ["kubernetes", svcTagsTab.uid] ++ specSplitWhitespace "a\tb") = false := by
  refine ⟨?_, ?_, ?_⟩ <;> rfl

end Archer
